import Mathlib

/-!
Verification of the larval-habitat capacity models in src/habitat.py.

The Python module defines a small family of stateful capacity models:
a constant model, a rainfall accumulation/evaporation model
(TemporaryRainfallHabitatModel) and a seasonal streambed extension
(SeasonalStreamHabitatModel).  Python float arithmetic is modelled over
the reals; each model instance is a record of its construction
parameters and its mutable state fields, and each update method becomes
a function from model state and weather to the new model state.
-/

noncomputable section

/-- Weather record consumed by the models each timestep: mean temperature in
degrees Celsius, relative humidity as a fraction, and rainfall in millimeters. -/
structure Weather where
  mean_temp_C : ℝ
  rel_humid : ℝ
  rain_mm : ℝ

/-- State of ConstantHabitatModel: the capacity stored at construction. -/
structure ConstantHabitatModel where
  capacity : ℝ

/-- Embeds ConstantHabitatModel.update, which does nothing. -/
def ConstantHabitatModel.update (m : ConstantHabitatModel) (_w : Weather) :
    ConstantHabitatModel :=
  m

/-- Embeds the inherited get_current_capacity: returns the stored capacity. -/
def ConstantHabitatModel.get_current_capacity (m : ConstantHabitatModel) : ℝ :=
  m.capacity

/-- State of TemporaryRainfallHabitatModel: the two construction parameters
and the mutable capacity field. -/
structure TemporaryRainfallHabitatModel where
  accumulation_scale : ℝ
  evaporation_scale : ℝ
  capacity : ℝ

/-- Embeds the constructor: capacity is initialized to 0 by the base
initializer, and the two scales are stored. -/
def TemporaryRainfallHabitatModel.init
    (accumulation_scale evaporation_scale : ℝ) : TemporaryRainfallHabitatModel :=
  ⟨accumulation_scale, evaporation_scale, 0⟩

/-- Embeds TemporaryRainfallHabitatModel.evaporation_rate, the
Clausius-Clapeyron saturated-vapor-pressure calculation.  The method receives
the model instance but reads none of its fields, only the weather. -/
def TemporaryRainfallHabitatModel.evaporation_rate
    (_m : TemporaryRainfallHabitatModel) (w : Weather) : ℝ :=
  let R : ℝ := 8.31446
  let Mw : ℝ := 0.01801
  let F0 : ℝ := -5628.1
  let F1 : ℝ := 5.1e11
  let F2 : ℝ := Mw / (2 * Real.pi * R)
  let Tk : ℝ := w.mean_temp_C + 273.15
  Real.exp (F0 / Tk) * F1 * Real.sqrt (F2 / Tk) * (1.0 - w.rel_humid)

/-- Embeds TemporaryRainfallHabitatModel.update: rainfall accumulation, then
proportional evaporation, then the clamp of negative capacity to zero. -/
def TemporaryRainfallHabitatModel.update (m : TemporaryRainfallHabitatModel)
    (w : Weather) : TemporaryRainfallHabitatModel :=
  let c1 := m.capacity + w.rain_mm * m.accumulation_scale
  let c2 := c1 - c1 * m.evaporation_scale * m.evaporation_rate w
  { m with capacity := if c2 < 0 then 0 else c2 }

/-- State of SeasonalStreamHabitatModel: the parent's fields plus the
stream-flow state line and its three construction parameters. -/
structure SeasonalStreamHabitatModel where
  accumulation_scale : ℝ
  evaporation_scale : ℝ
  stream_decay_scale : ℝ
  flow_threshold : ℝ
  max_capacity : ℝ
  capacity : ℝ
  stream_flow : ℝ

/-- Embeds the constructor: the parent initializer zeroes capacity, then
stream_flow is zeroed and the three extra parameters are stored. -/
def SeasonalStreamHabitatModel.init
    (accumulation_scale evaporation_scale stream_decay_scale
     flow_threshold max_capacity : ℝ) : SeasonalStreamHabitatModel :=
  ⟨accumulation_scale, evaporation_scale, stream_decay_scale,
    flow_threshold, max_capacity, 0, 0⟩

/-- View of the seasonal model through its parent class: the fields the
inherited TemporaryRainfallHabitatModel.update reads and writes. -/
def SeasonalStreamHabitatModel.toRainfall (m : SeasonalStreamHabitatModel) :
    TemporaryRainfallHabitatModel :=
  ⟨m.accumulation_scale, m.evaporation_scale, m.capacity⟩

/-- Embeds SeasonalStreamHabitatModel.update: the inherited update runs in
full, then capacity is clamped from above by max_capacity, then stream_flow
accumulates the rainfall and decays. -/
def SeasonalStreamHabitatModel.update (m : SeasonalStreamHabitatModel)
    (w : Weather) : SeasonalStreamHabitatModel :=
  let parent := m.toRainfall.update w
  let c := if parent.capacity > m.max_capacity then m.max_capacity
           else parent.capacity
  let f1 := m.stream_flow + w.rain_mm
  let f2 := f1 - f1 * m.stream_decay_scale
  { m with capacity := c, stream_flow := f2 }

/-- Embeds SeasonalStreamHabitatModel.get_current_capacity: the stored
capacity reduced by the stream-flow suppression factor. -/
def SeasonalStreamHabitatModel.get_current_capacity
    (m : SeasonalStreamHabitatModel) : ℝ :=
  let stream_flow_reduction := m.flow_threshold / (m.stream_flow + m.flow_threshold)
  m.capacity * stream_flow_reduction

/-- Evaporation rate written as the specification states it: with Tk the
temperature in Kelvin, the rate is exp(A / Tk) * B * sqrt(C / Tk) *
(1 - rel_humid), where A = -5628.1, B = 5.1e11 and C = Mw / (2 pi R) with
R = 8.31446 and Mw = 0.01801. -/
def evaporationRateSpec (w : Weather) : ℝ :=
  let R : ℝ := 8.31446
  let Mw : ℝ := 0.01801
  let A : ℝ := -5628.1
  let B : ℝ := 5.1e11
  let C : ℝ := Mw / (2 * Real.pi * R)
  let Tk : ℝ := w.mean_temp_C + 273.15
  Real.exp (A / Tk) * B * Real.sqrt (C / Tk) * (1 - w.rel_humid)

/-- The capacity transformation of one rainfall update as the specification
states it: accumulate rainfall, subtract the evaporation term, clamp a
negative result to zero. -/
def rainfallCapacityStep (c accumulation_scale evaporation_scale : ℝ)
    (w : Weather) : ℝ :=
  let c1 := c + w.rain_mm * accumulation_scale
  let c2 := c1 - c1 * evaporation_scale * evaporationRateSpec w
  if c2 < 0 then 0 else c2

/-- One seasonal update as the specification states it: the full rainfall
capacity step, then the upper clamp to max_capacity, then the
accumulate-then-decay step on stream_flow. -/
def seasonalSpecUpdate (m : SeasonalStreamHabitatModel) (w : Weather) :
    SeasonalStreamHabitatModel :=
  let c0 := rainfallCapacityStep m.capacity m.accumulation_scale
    m.evaporation_scale w
  let c := if c0 > m.max_capacity then m.max_capacity else c0
  let f := (m.stream_flow + w.rain_mm) -
    (m.stream_flow + w.rain_mm) * m.stream_decay_scale
  { m with capacity := c, stream_flow := f }

/-- The source's evaporation_rate method agrees with the spec-side formula
and ignores the model state entirely. -/
theorem evaporation_rate_eq_spec (m : TemporaryRainfallHabitatModel)
    (w : Weather) : m.evaporation_rate w = evaporationRateSpec w := by
  simp only [TemporaryRainfallHabitatModel.evaporation_rate, evaporationRateSpec]
  norm_num

/-- The zero clamp in the rainfall update is the max with zero. -/
theorem clamp_zero_eq_max (x : ℝ) : (if x < 0 then (0 : ℝ) else x) = max 0 x := by
  split_ifs with h
  · exact (max_eq_left h.le).symm
  · exact (max_eq_right (not_lt.mp h)).symm

/-- Closed form of the capacity after one rainfall update. -/
theorem rain_update_capacity (m : TemporaryRainfallHabitatModel) (w : Weather) :
    (m.update w).capacity =
      max 0 ((m.capacity + w.rain_mm * m.accumulation_scale) *
        (1 - m.evaporation_scale * m.evaporation_rate w)) := by
  simp only [TemporaryRainfallHabitatModel.update]
  rw [clamp_zero_eq_max]
  congr 1
  ring

/-- One rainfall update never leaves a negative capacity, from any state. -/
theorem rain_update_capacity_nonneg (m : TemporaryRainfallHabitatModel)
    (w : Weather) : 0 ≤ (m.update w).capacity := by
  rw [rain_update_capacity]
  exact le_max_left 0 _

/-- Closed form of the capacity after one seasonal update. -/
theorem seasonal_update_capacity (m : SeasonalStreamHabitatModel) (w : Weather) :
    (m.update w).capacity =
      if (m.toRainfall.update w).capacity > m.max_capacity then m.max_capacity
      else (m.toRainfall.update w).capacity := rfl

/-- The seasonal update leaves max_capacity unchanged. -/
theorem seasonal_update_max_capacity (m : SeasonalStreamHabitatModel)
    (w : Weather) : (m.update w).max_capacity = m.max_capacity := rfl

/-- Any sequence of seasonal updates leaves max_capacity unchanged. -/
theorem seasonal_foldl_max_capacity (ws : List Weather)
    (m : SeasonalStreamHabitatModel) :
    (ws.foldl SeasonalStreamHabitatModel.update m).max_capacity =
      m.max_capacity := by
  induction ws generalizing m with
  | nil => rfl
  | cons w ws ih =>
      rw [List.foldl_cons, ih (m.update w), seasonal_update_max_capacity]

/-- One seasonal update ends at or below max_capacity, from any state. -/
theorem seasonal_update_capacity_le (m : SeasonalStreamHabitatModel)
    (w : Weather) : (m.update w).capacity ≤ m.max_capacity := by
  rw [seasonal_update_capacity]
  split_ifs with h
  · exact le_refl _
  · exact not_lt.mp h

/-- One seasonal update keeps capacity nonnegative when max_capacity is. -/
theorem seasonal_update_capacity_nonneg (m : SeasonalStreamHabitatModel)
    (w : Weather) (hmx : 0 ≤ m.max_capacity) : 0 ≤ (m.update w).capacity := by
  rw [seasonal_update_capacity]
  split_ifs with h
  · exact hmx
  · exact rain_update_capacity_nonneg m.toRainfall w

/-- C1: one TemporaryRainfallHabitatModel.update transforms the stored
capacity in exactly the three spec steps (accumulate, evaporate, clamp
negative to zero) and changes nothing else in the model: the whole
post-state is the pre-state with capacity replaced by the three-step value. -/
theorem rainfall_update_is_three_step_capacity_transform
    (m : TemporaryRainfallHabitatModel) (w : Weather) :
    m.update w = { m with capacity :=
      (rainfallCapacityStep m.capacity m.accumulation_scale
        m.evaporation_scale w) } := by
  simp only [TemporaryRainfallHabitatModel.update, rainfallCapacityStep,
    evaporation_rate_eq_spec]

/-- C2: the evaporation_rate method equals exactly the spec formula
exp(A / Tk) * B * sqrt(C / Tk) * (1 - rel_humid) with the stated constants,
and it is pure: its value is independent of the model instance it is
invoked on, and it mutates nothing. -/
theorem evaporation_rate_matches_spec_and_is_pure
    (m m' : TemporaryRainfallHabitatModel) (w : Weather) :
    m.evaporation_rate w = evaporationRateSpec w ∧
    m.evaporation_rate w = m'.evaporation_rate w := by
  refine ⟨evaporation_rate_eq_spec m w, ?_⟩
  rw [evaporation_rate_eq_spec, evaporation_rate_eq_spec]

/-- C3: the seasonal update runs the parent rainfall update in full, then the
upper clamp to max_capacity, then the stream-flow accumulate-then-decay, in
that order; and in the concrete scenario (accumulation_scale 1.0,
evaporation_scale 0.0, stream_decay_scale 0.5, flow_threshold 5,
max_capacity 100), one update with rain_mm 10 yields capacity 10,
stream_flow 5 and current capacity 5.0. -/
theorem seasonal_update_order_and_scenario :
    (∀ (m : SeasonalStreamHabitatModel) (w : Weather),
      m.update w = seasonalSpecUpdate m w) ∧
    ((SeasonalStreamHabitatModel.init 1.0 0.0 0.5 5 100).update
      ⟨25, 0.8, 10⟩).capacity = 10 ∧
    ((SeasonalStreamHabitatModel.init 1.0 0.0 0.5 5 100).update
      ⟨25, 0.8, 10⟩).stream_flow = 5 ∧
    ((SeasonalStreamHabitatModel.init 1.0 0.0 0.5 5 100).update
      ⟨25, 0.8, 10⟩).get_current_capacity = 5.0 := by
  refine ⟨fun m w => ?_, ?_, ?_, ?_⟩
  · simp only [SeasonalStreamHabitatModel.update, seasonalSpecUpdate,
      SeasonalStreamHabitatModel.toRainfall, TemporaryRainfallHabitatModel.update,
      rainfallCapacityStep, evaporation_rate_eq_spec]
  · simp only [SeasonalStreamHabitatModel.init, SeasonalStreamHabitatModel.update,
      SeasonalStreamHabitatModel.toRainfall, TemporaryRainfallHabitatModel.update]
    norm_num
  · simp only [SeasonalStreamHabitatModel.init, SeasonalStreamHabitatModel.update,
      SeasonalStreamHabitatModel.toRainfall, TemporaryRainfallHabitatModel.update]
    norm_num
  · simp only [SeasonalStreamHabitatModel.init, SeasonalStreamHabitatModel.update,
      SeasonalStreamHabitatModel.toRainfall, TemporaryRainfallHabitatModel.update,
      SeasonalStreamHabitatModel.get_current_capacity]
    norm_num

/-- C4: get_current_capacity returns exactly capacity times
flow_threshold / (stream_flow + flow_threshold); with stream_flow
nonnegative and flow_threshold positive the suppression factor is in (0, 1],
the returned value is at most the stored capacity when that is nonnegative,
and it equals the stored capacity when stream_flow is zero. -/
theorem seasonal_get_capacity_suppression_bounds
    (m : SeasonalStreamHabitatModel) :
    m.get_current_capacity =
      m.capacity * (m.flow_threshold / (m.stream_flow + m.flow_threshold)) ∧
    (0 ≤ m.stream_flow → 0 < m.flow_threshold →
      0 < m.flow_threshold / (m.stream_flow + m.flow_threshold) ∧
      m.flow_threshold / (m.stream_flow + m.flow_threshold) ≤ 1 ∧
      (0 ≤ m.capacity → m.get_current_capacity ≤ m.capacity) ∧
      (m.stream_flow = 0 → m.get_current_capacity = m.capacity)) := by
  have hget : m.get_current_capacity =
      m.capacity * (m.flow_threshold / (m.stream_flow + m.flow_threshold)) := rfl
  refine ⟨hget, fun hs hf => ?_⟩
  have hd : 0 < m.stream_flow + m.flow_threshold := by linarith
  have hle1 : m.flow_threshold / (m.stream_flow + m.flow_threshold) ≤ 1 :=
    (div_le_one hd).mpr (by linarith)
  refine ⟨div_pos hf hd, hle1, fun hc => ?_, fun hz => ?_⟩
  · rw [hget]
    exact mul_le_of_le_one_right hc hle1
  · rw [hget, hz, zero_add, div_self hf.ne', mul_one]

/-- C4 witness: a concrete seasonal state with capacity 10, stream_flow 5 and
flow_threshold 5 reports at most its stored capacity. -/
theorem seasonal_get_capacity_suppression_bounds_witness :
    (⟨1, 0, 0.5, 5, 100, 10, 5⟩ :
      SeasonalStreamHabitatModel).get_current_capacity ≤ 10 :=
  ((seasonal_get_capacity_suppression_bounds
    ⟨1, 0, 0.5, 5, 100, 10, 5⟩).2 (by norm_num) (by norm_num)).2.2.1 (by norm_num)

/-- C5 counterexample: a SeasonalStreamHabitatModel constructed with the
negative max_capacity -5 has capacity -5 < 0 after its very first update. -/
theorem seasonal_capacity_negative_after_update :
    ((SeasonalStreamHabitatModel.init 1 0 0 1 (-5)).update
      ⟨25, 0.8, 0⟩).capacity < 0 := by
  simp only [SeasonalStreamHabitatModel.init, SeasonalStreamHabitatModel.update,
    SeasonalStreamHabitatModel.toRainfall, TemporaryRainfallHabitatModel.update]
  norm_num

/-- C5 amended: after every update of any sequence from construction, the
rainfall model's capacity is nonnegative unconditionally, and the seasonal
model's capacity is nonnegative provided max_capacity is nonnegative. -/
theorem capacity_nonneg_after_updates :
    (∀ (a e : ℝ) (ws : List Weather) (w : Weather),
      0 ≤ ((ws.foldl TemporaryRainfallHabitatModel.update
        (TemporaryRainfallHabitatModel.init a e)).update w).capacity) ∧
    (∀ (a e d t mx : ℝ), 0 ≤ mx → ∀ (ws : List Weather) (w : Weather),
      0 ≤ ((ws.foldl SeasonalStreamHabitatModel.update
        (SeasonalStreamHabitatModel.init a e d t mx)).update w).capacity) := by
  constructor
  · intro a e ws w
    exact rain_update_capacity_nonneg _ w
  · intro a e d t mx hmx ws w
    apply seasonal_update_capacity_nonneg
    rw [seasonal_foldl_max_capacity]
    exact hmx

/-- C5 amended witness: one update of a concrete seasonal model with
nonnegative max_capacity keeps capacity nonnegative. -/
theorem capacity_nonneg_after_updates_witness :
    (0 : ℝ) ≤ 100 ∧
    0 ≤ ((([] : List Weather).foldl SeasonalStreamHabitatModel.update
      (SeasonalStreamHabitatModel.init 1 0 0.5 5 100)).update
        ⟨25, 0.8, 10⟩).capacity :=
  ⟨by norm_num,
    capacity_nonneg_after_updates.2 1 0 0.5 5 100 (by norm_num) [] ⟨25, 0.8, 10⟩⟩

/-- C6: for every seasonal model from construction and every weather
sequence, capacity is at most max_capacity after every update call. -/
theorem seasonal_capacity_le_max_after_updates
    (a e d t mx : ℝ) (ws : List Weather) (w : Weather) :
    ((ws.foldl SeasonalStreamHabitatModel.update
      (SeasonalStreamHabitatModel.init a e d t mx)).update w).capacity ≤ mx := by
  have h := seasonal_update_capacity_le
    (ws.foldl SeasonalStreamHabitatModel.update
      (SeasonalStreamHabitatModel.init a e d t mx)) w
  rwa [seasonal_foldl_max_capacity] at h

/-- Any number of constant-model updates is the identity on the state. -/
theorem constant_foldl_update_id (m : ConstantHabitatModel) (ws : List Weather) :
    ws.foldl ConstantHabitatModel.update m = m := by
  induction ws with
  | nil => rfl
  | cons w ws ih => rw [List.foldl_cons]; exact ih

/-- C7: a ConstantHabitatModel constructed with capacity c reports exactly c
after any finite sequence of updates, and its whole state is unchanged. -/
theorem constant_model_invariant_under_updates (c : ℝ) (ws : List Weather) :
    (ws.foldl ConstantHabitatModel.update ⟨c⟩).get_current_capacity = c ∧
    ws.foldl ConstantHabitatModel.update ⟨c⟩ = (⟨c⟩ : ConstantHabitatModel) := by
  rw [constant_foldl_update_id]
  exact ⟨rfl, rfl⟩

/-- C8 counterexample: with accumulation_scale -1, evaporation_scale 0 and
starting capacity 5, rain 1 gives capacity 4 while rain 0 gives capacity 5,
so more rain yields strictly less post-update capacity. -/
theorem rainfall_monotonicity_fails_for_negative_scale :
    ((⟨-1, 0, 5⟩ : TemporaryRainfallHabitatModel).update
      ⟨25, 0.8, 1⟩).capacity <
    ((⟨-1, 0, 5⟩ : TemporaryRainfallHabitatModel).update
      ⟨25, 0.8, 0⟩).capacity := by
  simp only [TemporaryRainfallHabitatModel.update]
  norm_num

/-- Monotonicity of the clamped product in its nonnegative left factor. -/
theorem max_zero_mul_mono (x y K : ℝ) (hx : 0 ≤ x) (hxy : x ≤ y) :
    max 0 (x * K) ≤ max 0 (y * K) := by
  rcases le_or_lt 0 K with hK | hK
  · exact max_le_max le_rfl (mul_le_mul_of_nonneg_right hxy hK)
  · have hx' : x * K ≤ 0 := mul_nonpos_iff.mpr (Or.inl ⟨hx, hK.le⟩)
    have hy' : y * K ≤ 0 := mul_nonpos_iff.mpr (Or.inl ⟨hx.trans hxy, hK.le⟩)
    rw [max_eq_left hx', max_eq_left hy']

/-- C8 amended: one rainfall update step is monotone non-decreasing in
rain_mm, holding temperature, humidity and both scales fixed, provided the
starting capacity and the accumulation_scale are nonnegative. -/
theorem rainfall_update_monotone_in_rain
    (a e c temp rh r1 r2 : ℝ) (hc : 0 ≤ c) (ha : 0 ≤ a)
    (h2 : 0 ≤ r2) (h21 : r2 ≤ r1) :
    ((⟨a, e, c⟩ : TemporaryRainfallHabitatModel).update
      ⟨temp, rh, r2⟩).capacity ≤
    ((⟨a, e, c⟩ : TemporaryRainfallHabitatModel).update
      ⟨temp, rh, r1⟩).capacity := by
  rw [rain_update_capacity, rain_update_capacity]
  have hrate : TemporaryRainfallHabitatModel.evaporation_rate
      ⟨a, e, c⟩ ⟨temp, rh, r2⟩ =
      TemporaryRainfallHabitatModel.evaporation_rate
      ⟨a, e, c⟩ ⟨temp, rh, r1⟩ := rfl
  rw [hrate]
  exact max_zero_mul_mono (c + r2 * a) (c + r1 * a)
    (1 - e * TemporaryRainfallHabitatModel.evaporation_rate
      ⟨a, e, c⟩ ⟨temp, rh, r1⟩)
    (add_nonneg hc (mul_nonneg h2 ha))
    (add_le_add_left (mul_le_mul_of_nonneg_right h21 ha) c)

/-- C8 amended witness at a concrete model and rain pair. -/
theorem rainfall_update_monotone_in_rain_witness :
    ((⟨1, 0, 0⟩ : TemporaryRainfallHabitatModel).update
      ⟨25, 0.8, 0⟩).capacity ≤
    ((⟨1, 0, 0⟩ : TemporaryRainfallHabitatModel).update
      ⟨25, 0.8, 1⟩).capacity :=
  rainfall_update_monotone_in_rain 1 0 0 25 0.8 1 0 (by norm_num)
    (by norm_num) (by norm_num) (by norm_num)

/-- C10: update preserves every construction parameter of every variant (the
constant model's whole state is untouched), and the capacity reads are pure
functions of the state that mutate nothing. -/
theorem update_preserves_construction_parameters :
    (∀ (m : ConstantHabitatModel) (w : Weather), m.update w = m) ∧
    (∀ (m : TemporaryRainfallHabitatModel) (w : Weather),
      (m.update w).accumulation_scale = m.accumulation_scale ∧
      (m.update w).evaporation_scale = m.evaporation_scale) ∧
    (∀ (m : SeasonalStreamHabitatModel) (w : Weather),
      (m.update w).accumulation_scale = m.accumulation_scale ∧
      (m.update w).evaporation_scale = m.evaporation_scale ∧
      (m.update w).stream_decay_scale = m.stream_decay_scale ∧
      (m.update w).flow_threshold = m.flow_threshold ∧
      (m.update w).max_capacity = m.max_capacity) :=
  ⟨fun _ _ => rfl, fun _ _ => ⟨rfl, rfl⟩, fun _ _ => ⟨rfl, rfl, rfl, rfl, rfl⟩⟩

end
